import Mathlib

/-!
Shallow embedding of the data-analyst-agent pipeline
(src/agent.py, src/llm_client.py, src/analyzer.py, src/visualizer.py,
api/index.py) and proofs about the spec's claims.

External effects (the language-model call, the child process, the PIL
recompression, the scrape) are modelled as explicit parameters giving the
outcome of the effect; everything the repository's own code computes is
translated directly.
-/

namespace DataAgent

/-! ### Python string primitives used by the source -/

/-- Characters removed by Python `str.strip()` (ASCII whitespace set). -/
def pyWhitespace (c : Char) : Bool :=
  c = ' ' || c = '\t' || c = '\n' || c = '\r' || c = '\x0b' || c = '\x0c'

/-- Python `str.strip()`. -/
def pyStrip (s : String) : String :=
  ⟨((s.data.dropWhile pyWhitespace).reverse.dropWhile pyWhitespace).reverse⟩

/-- Python `str.lower()` (ASCII range, which is all the source's keywords use). -/
def pyLower (s : String) : String :=
  ⟨s.data.map Char.toLower⟩

/-- Does `needle` occur as a contiguous infix of `hay` (scanning positions
left to right)? -/
def listInfixOf (needle : List Char) : List Char → Bool
  | [] => needle.isEmpty
  | c :: cs => needle.isPrefixOf (c :: cs) || listInfixOf needle cs

/-- Python `needle in hay` substring test. -/
def strContains (hay needle : String) : Bool :=
  listInfixOf needle.data hay.data

/-- Split a character list at every newline (no collapsing, keeps empties) —
the behaviour of Python `text.split('\n')`. -/
def splitNLChars : List Char → List (List Char)
  | [] => [[]]
  | c :: rest =>
    let r := splitNLChars rest
    if c = '\n' then [] :: r
    else
      match r with
      | [] => [[c]]
      | l :: ls => (c :: l) :: ls

/-- Python `text.split('\n')`. -/
def pySplitNL (s : String) : List String :=
  (splitNLChars s.data).map (fun l => ⟨l⟩)

/-- Python slicing `s[:n]` (by characters; all sliced strings here are ASCII). -/
def pySlice (s : String) (n : Nat) : String :=
  ⟨s.data.take n⟩

/-- Whether a string matches the regex `^\d+\.` used by both fallback parsers:
one or more digits followed by a period, at the start. -/
def startsNumDot (s : String) : Bool :=
  let ds := s.data.takeWhile Char.isDigit
  !ds.isEmpty && ((s.data.drop ds.length).head? == some '.')

/-! ### Task model (src/llm_client.py, src/agent.py) -/

/-- The four task types of the data model. -/
inductive TaskType where
  | numerical
  | text
  | correlation
  | visualization
deriving DecidableEq, Repr

/-- A sub-task. `question` is optional because a language-model-produced dict
may lack the key (`task.get('question', ...)` in agent.py); the fallback
parsers always set it. -/
structure Task where
  type : TaskType
  question : Option String
  details : String
deriving DecidableEq, Repr

/-- `GeminiClient._fallback_parse` / `DataAnalystAgent.extract_url` URL regex:
characters excluded by the class `[^\s<>"{}|\\^`[\]]`. -/
def urlCharBanned (c : Char) : Bool :=
  pyWhitespace c || c = '<' || c = '>' || c = '"' || c = '\x7b' || c = '\x7d' ||
  c = '|' || c = '\\' || c = '^' || c = Char.ofNat 96 || c = '[' || c = ']'

/-- Try to match `https?://[^...]+` at the head of the character list,
returning the matched text. -/
def tryUrlAt (cs : List Char) : Option String :=
  if "https://".data.isPrefixOf cs then
    let body := (cs.drop 8).takeWhile (fun c => !urlCharBanned c)
    if body.isEmpty then none else some ⟨"https://".data ++ body⟩
  else if "http://".data.isPrefixOf cs then
    let body := (cs.drop 7).takeWhile (fun c => !urlCharBanned c)
    if body.isEmpty then none else some ⟨"http://".data ++ body⟩
  else none

/-- Leftmost regex match: scan positions left to right. -/
def findUrl : List Char → Option String
  | [] => none
  | c :: cs =>
    match tryUrlAt (c :: cs) with
    | some u => some u
    | none => findUrl cs

/-- `re.findall(url_pattern, text)`, first match or `None`; the same pattern is
used by `DataAnalystAgent.extract_url` and
`GeminiClient._extract_url_from_text`. -/
def extract_url (text : String) : Option String :=
  findUrl text.data

/-- Keyword classification of one stripped line in
`GeminiClient._fallback_parse` (src/llm_client.py lines 72-79). -/
def classifyLineLLM (line : String) : TaskType :=
  let l := pyLower line
  if strContains l "correlation" then TaskType.correlation
  else if ["draw", "plot", "chart", "scatterplot"].any (fun w => strContains l w) then
    TaskType.visualization
  else if ["how many", "count"].any (fun w => strContains l w) then
    TaskType.numerical
  else TaskType.text

/-- Keyword classification of one stripped line in
`DataAnalystAgent._extract_questions_from_text` (src/agent.py lines 107-114).
Note the two extra keywords `graph` and `number of` absent from the
llm_client version. -/
def classifyLineAgent (line : String) : TaskType :=
  let l := pyLower line
  if strContains l "correlation" then TaskType.correlation
  else if ["draw", "plot", "chart", "scatterplot", "graph"].any (fun w => strContains l w) then
    TaskType.visualization
  else if ["how many", "count", "number of"].any (fun w => strContains l w) then
    TaskType.numerical
  else TaskType.text

/-- The stripped lines of a text that match `^\d+\.`, in order — the lines both
fallback scanners turn into tasks. -/
def numberedLines (text : String) : List String :=
  (pySplitNL text).filterMap (fun raw =>
    let line := pyStrip raw
    if startsNumDot line then some line else none)

/-- Task list built by `GeminiClient._fallback_parse` (src/llm_client.py
lines 66-85). -/
def fallbackParseTasks (text : String) : List Task :=
  (pySplitNL text).filterMap (fun raw =>
    let line := pyStrip raw
    if startsNumDot line then
      some { type := classifyLineLLM line, question := some line, details := "" }
    else none)

/-- `TaskBreakdown` as returned by `GeminiClient._fallback_parse`. -/
structure TaskBreakdown where
  data_source : String
  tasks : List Task
deriving DecidableEq, Repr

/-- `GeminiClient._fallback_parse` (src/llm_client.py lines 64-91). -/
def fallback_parse (text : String) : TaskBreakdown :=
  { data_source := (extract_url text).getD "unknown"
    tasks := fallbackParseTasks text }

/-- `DataAnalystAgent._extract_questions_from_text` (src/agent.py
lines 98-122). -/
def extract_questions_from_text (text : String) : List Task :=
  (pySplitNL text).filterMap (fun raw =>
    let line := pyStrip raw
    if startsNumDot line then
      some { type := classifyLineAgent line, question := some line, details := "" }
    else none)

/-- `DataAnalystAgent._should_return_json` (src/agent.py lines 86-96):
`any(indicator in question_text for indicator in json_indicators)`. -/
def should_return_json (question_text : String) : Bool :=
  ["respond with a JSON object",
   "JSON object containing",
   "return as JSON",
   "\"question\":",
   "\x7b\""].any (fun ind => strContains question_text ind)

/-! ### Dataset model

The pipeline only ever inspects a pandas DataFrame through `data is None` and
`data.empty` before dispatching it to the child process, so the embedding keeps
the axis lengths. `pandas.DataFrame.empty` is true when either axis has
length 0. -/

structure Dataset where
  rows : Nat
  cols : Nat
deriving DecidableEq, Repr

/-- Python `data is None or data.empty` guard shared by
`DataAnalyzer.analyze_with_llm_code` and
`ChartGenerator.generate_chart_with_llm`. -/
def noneOrEmpty (data : Option Dataset) : Bool :=
  match data with
  | none => true
  | some d => d.rows == 0 || d.cols == 0

/-! ### Sandbox executor model (src/analyzer.py, src/visualizer.py)

The child process is external nondeterminism: its outcome is a parameter.
`subprocess.run(..., timeout=t)` either completes with an exit code and
captured stdout/stderr, or raises `subprocess.TimeoutExpired` (terminating the
child). -/

/-- Outcome of the `subprocess.run` call. -/
inductive ProcOutcome where
  | completed (exitCode : Nat) (stdout : String) (stderr : String)
  | timedOut
deriving DecidableEq, Repr

/-- `timeout=30` in `DataAnalyzer._execute_analysis_code`. -/
def analysisTimeoutSeconds : Nat := 30

/-- `timeout=60` in `ChartGenerator._execute_chart_code`. -/
def chartTimeoutSeconds : Nat := 60

instance {ε α : Type} [DecidableEq ε] [DecidableEq α] : DecidableEq (Except ε α) :=
  fun x y =>
    match x, y with
    | Except.error a, Except.error b =>
        if h : a = b then isTrue (by rw [h])
        else isFalse (by intro hc; injection hc; contradiction)
    | Except.error _, Except.ok _ => isFalse (by intro hc; exact Except.noConfusion hc)
    | Except.ok _, Except.error _ => isFalse (by intro hc; exact Except.noConfusion hc)
    | Except.ok a, Except.ok b =>
        if h : a = b then isTrue (by rw [h])
        else isFalse (by intro hc; injection hc; contradiction)

/-- Result of one executor run: the value or the raised error message, the
number of child processes spawned, and the scratch files still on disk when
the call returns/raises (tags: the serialized CSV, the program file, and for
charts the image file). -/
structure ExecEffect where
  result : Except String String
  spawned : Nat
  leftover : List String
deriving DecidableEq, Repr

/-- `DataAnalyzer._execute_analysis_code` (src/analyzer.py lines 210-267),
given the child-process outcome and the behaviour of `json.loads` on the
trimmed stdout (`jsonParse s = some v` models a successful parse of the
`{result, type}` line with result `v`; `none` models `json.JSONDecodeError`).

Control flow translated from the source:
- the CSV and the program file are written, then the child is spawned;
- on `TimeoutExpired` the handler re-raises
  `Exception("Analysis code execution timeout")` — the two `os.unlink` calls
  sit before the `returncode` check but after `subprocess.run`, so on timeout
  neither file is deleted;
- on completion both files are unlinked, then a non-zero exit raises
  `Exception("Code execution failed: {stderr}")`, which the trailing generic
  handler rewraps as `Exception("Code execution error: ...")`;
- on exit 0 the stdout is parsed, falling back to the raw trimmed stdout. -/
def execute_analysis_code (p : ProcOutcome) (jsonParse : String → Option String) :
    ExecEffect :=
  match p with
  | ProcOutcome.timedOut =>
      { result := Except.error "Analysis code execution timeout"
        spawned := 1
        leftover := ["data.csv", "code.py"] }
  | ProcOutcome.completed exitCode stdout stderr =>
      if exitCode ≠ 0 then
        { result := Except.error
            ("Code execution error: Code execution failed: " ++ stderr)
          spawned := 1
          leftover := [] }
      else
        { result := Except.ok ((jsonParse (pyStrip stdout)).getD (pyStrip stdout))
          spawned := 1
          leftover := [] }

/-- The fixed sentinel returned by `DataAnalyzer.analyze_with_llm_code` when
the dataset is `None` or empty (src/analyzer.py line 109). -/
def noDataSentinel : String := "No data available for analysis"

/-- `DataAnalyzer.analyze_with_llm_code` (src/analyzer.py lines 105-123).
`codegen` is the outcome of `_generate_analysis_code` (the language-model call
plus code extraction): an error message if it raised, else the code fragment.
Returns the result (or raised message) paired with the number of child
processes spawned. -/
def analyze_with_llm_code (data : Option Dataset) (codegen : Except String String)
    (p : ProcOutcome) (jsonParse : String → Option String) :
    Except String String × Nat :=
  if noneOrEmpty data then
    (Except.ok noDataSentinel, 0)
  else
    match codegen with
    | Except.error e => (Except.error ("LLM-based analysis failed: " ++ e), 0)
    | Except.ok _ =>
        let ex := execute_analysis_code p jsonParse
        match ex.result with
        | Except.error e =>
            (Except.error ("LLM-based analysis failed: " ++ e), ex.spawned)
        | Except.ok v => (Except.ok v, ex.spawned)

/-- The fixed 1×1 placeholder data URI returned by
`ChartGenerator.generate_chart_with_llm` on an empty dataset
(src/visualizer.py line 29). -/
def placeholderDataURI : String :=
  "data:image/png;base64,iVBORw0KGgoAAAANSUhEUgAAAAEAAAABCAYAAAAfFcSJAAAADUlEQVR42mNkYPhfDwAChwGA60e6kgAAAABJRU5ErkJggg=="

/-- `ChartGenerator._compress_image` (src/visualizer.py lines 217-236). `pil`
is the outcome of the PIL decode/re-encode pass: `Except.ok s` is the base64
of the re-encoded bytes, `Except.error ()` models any exception, after which
the encoded string is truncated to 100000 characters. -/
def compress_image (pil : Except Unit String) (base64_image : String) : String :=
  match pil with
  | Except.ok compressed => compressed
  | Except.error _ =>
      if base64_image.length > 100000 then pySlice base64_image 100000
      else base64_image

/-- `ChartGenerator._execute_chart_code` (src/visualizer.py lines 140-209),
given the child-process outcome, whether `os.path.exists(img_path)` holds
afterwards (the temp image file is pre-created, so this is true unless the
child removed it), the base64 encoding of the image bytes, and the PIL
recompression outcome.

Control flow translated from the source:
- CSV, program file and (empty) image file are created, then the child runs;
- on `TimeoutExpired`: re-raise `Exception("Chart generation timeout")`; the
  unlinks sit after `subprocess.run`, so all three files remain;
- on completion the CSV and program file are unlinked; a non-zero exit raises
  `Exception("Chart generation failed: {stderr}")`, rewrapped by the generic
  handler as `Exception("Chart execution error: ...")` — the image file is
  never unlinked on this path;
- on exit 0 with the image present: read, unlink the image, base64-encode;
  if the encoding exceeds 100000 characters run `_compress_image`; prepend
  the data-URI header. No size check is applied to a successful
  recompression's output;
- on exit 0 with the image absent: raise
  `Exception("Chart image was not generated")`, rewrapped the same way. -/
def execute_chart_code (p : ProcOutcome) (imgExists : Bool) (b64img : String)
    (pil : Except Unit String) : ExecEffect :=
  match p with
  | ProcOutcome.timedOut =>
      { result := Except.error "Chart generation timeout"
        spawned := 1
        leftover := ["data.csv", "code.py", "chart.png"] }
  | ProcOutcome.completed exitCode _stdout stderr =>
      if exitCode ≠ 0 then
        { result := Except.error
            ("Chart execution error: Chart generation failed: " ++ stderr)
          spawned := 1
          leftover := ["chart.png"] }
      else if imgExists then
        let b :=
          if b64img.length > 100000 then compress_image pil b64img else b64img
        { result := Except.ok ("data:image/png;base64," ++ b)
          spawned := 1
          leftover := [] }
      else
        { result := Except.error
            "Chart execution error: Chart image was not generated"
          spawned := 1
          leftover := [] }

/-- `ChartGenerator.generate_chart_with_llm` (src/visualizer.py lines 25-43).
`codegen` is the outcome of `_generate_chart_code`. Returns the data URI (or
raised message) paired with the number of child processes spawned. -/
def generate_chart_with_llm (data : Option Dataset) (codegen : Except String String)
    (p : ProcOutcome) (imgExists : Bool) (b64img : String)
    (pil : Except Unit String) : Except String String × Nat :=
  if noneOrEmpty data then
    (Except.ok placeholderDataURI, 0)
  else
    match codegen with
    | Except.error e => (Except.error ("Chart generation failed: " ++ e), 0)
    | Except.ok _ =>
        let ex := execute_chart_code p imgExists b64img pil
        match ex.result with
        | Except.error e =>
            (Except.error ("Chart generation failed: " ++ e), ex.spawned)
        | Except.ok v => (Except.ok v, ex.spawned)

/-! ### Result aggregation (src/agent.py `DataAnalystAgent.process_request`) -/

/-- One response entry: a per-task value, or the string an error path stored. -/
inductive Entry (α : Type) where
  | val (a : α)
  | err (s : String)
deriving DecidableEq, Repr

/-- The aggregated response: the array shape or the keyed-object shape. The
object is an insertion-ordered association list, matching Python dict
semantics. -/
inductive Response (α : Type) where
  | arr (items : List (Entry α))
  | obj (pairs : List (String × Entry α))
deriving DecidableEq, Repr

/-- `True` for the object shape. -/
def Response.isObj {α : Type} : Response α → Bool
  | Response.arr _ => false
  | Response.obj _ => true

/-- Python dict assignment `d[k] = v` on an insertion-ordered dict: overwrite
in place if the key exists, else append. -/
def dictInsert {α : Type} (d : List (String × Entry α)) (k : String) (v : Entry α) :
    List (String × Entry α) :=
  if d.any (fun p => p.1 = k) then
    d.map (fun p => if p.1 = k then (k, v) else p)
  else d ++ [(k, v)]

/-- Steps 1-2 of `process_request` (src/agent.py lines 26-37): acquire the
dataset. The scrape+structure outcome and the DuckDB outcome are external
parameters; which one runs (if any) is decided by the code's own tests on the
request text. `Except.error` models an exception reaching the outer handler. -/
def acquireData (text : String) (scrapeOutcome duckOutcome : Except String Dataset) :
    Except String (Option Dataset) :=
  if (extract_url text).isSome then scrapeOutcome.map some
  else if strContains (pyLower text) "duckdb" || strContains text "s3://" then
    duckOutcome.map some
  else Except.ok none

/-- The per-iteration body of the task loop (src/agent.py lines 52-72): run the
chart path for `visualization` tasks and the analysis path otherwise; any
exception is caught and converted to `"Error processing task: " ++ str(e)`.
`chart` and `analyze` give each path's outcome on a task. -/
def taskEntry {α : Type} (chart analyze : Task → Except String α) (task : Task) :
    Entry α :=
  match (if task.type = TaskType.visualization then chart task else analyze task) with
  | Except.ok v => Entry.val v
  | Except.error e => Entry.err ("Error processing task: " ++ e)

/-- The task loop of `process_request` (src/agent.py lines 51-72), carrying the
two accumulators `results` and `result_dict` and the `enumerate` index. -/
def processLoop {α : Type} (isJson : Bool) (chart analyze : Task → Except String α) :
    Nat → List Task → List (Entry α) → List (String × Entry α) →
    List (Entry α) × List (String × Entry α)
  | _, [], results, resultDict => (results, resultDict)
  | i, task :: rest, results, resultDict =>
      let entry := taskEntry chart analyze task
      if isJson then
        let key := task.question.getD ("question_" ++ toString (i + 1))
        processLoop isJson chart analyze (i + 1) rest results
          (dictInsert resultDict key entry)
      else
        processLoop isJson chart analyze (i + 1) rest (results ++ [entry]) resultDict

/-- The task list the loop runs over: the parsed tasks, or — when they are
empty (`if not tasks:`) — the agent's own fallback scan (src/agent.py
lines 46-49). -/
def effectiveTasks (text : String) (parsedTasks : List Task) : List Task :=
  if parsedTasks.isEmpty then extract_questions_from_text text else parsedTasks

/-- `DataAnalystAgent.process_request` (src/agent.py lines 20-78).
`parsedTasks` is the `tasks` list of the breakdown `llm.parse_task` returned
(empty when the key is missing); `parse_task` itself never raises — it
degrades to `_fallback_parse`. The outer `except` renders any step-1/2 failure
as a single `"Processing failed: ..."` entry in the mode-appropriate shape. -/
def process_request {α : Type} (text : String) (parsedTasks : List Task)
    (scrapeOutcome duckOutcome : Except String Dataset)
    (chart analyze : Task → Except String α) : Response α :=
  match acquireData text scrapeOutcome duckOutcome with
  | Except.error e =>
      let msg := "Processing failed: " ++ e
      if should_return_json text then Response.obj [("error", Entry.err msg)]
      else Response.arr [Entry.err msg]
  | Except.ok _ =>
      let isJson := should_return_json text
      let acc := processLoop isJson chart analyze 0 (effectiveTasks text parsedTasks) [] []
      if isJson then Response.obj acc.2 else Response.arr acc.1

/-! ### HTTP boundary (api/index.py) -/

/-- `os.getenv('GEMINI_API_KEY')` followed by Python's `if not api_key`: unset
and empty both count as missing (src/llm_client.py lines 10-12). -/
def geminiKeyMissing (env : List (String × String)) : Bool :=
  ((env.lookup "GEMINI_API_KEY").getD "") == ""

/-- `GeminiClient.__init__` (src/llm_client.py lines 9-15): raises
`ValueError("GEMINI_API_KEY environment variable is required")` when the
credential is missing, else configures the client. -/
def geminiClientInit (env : List (String × String)) : Except String Unit :=
  if geminiKeyMissing env then
    Except.error "GEMINI_API_KEY environment variable is required"
  else Except.ok ()

/-- Importing api/index.py. Its `from agent import DataAnalystAgent`
(line 16, with `src/` prepended to `sys.path`) executes agent.py, whose
top-level `from analyzer import DataAnalyzer` and
`from visualizer import ChartGenerator` (agent.py lines 9-10) load analyzer.py
and visualizer.py as package-less top-level modules; their relative imports
(`from .llm_client import GeminiClient`, analyzer.py line 10 and
visualizer.py line 1) then raise `ImportError` in a module with no parent
package. index.py lines 15-23 catch the `ImportError`, print diagnostics and
re-raise it. Startup therefore fails identically in every environment — the
credential is never read at process start. -/
def module_startup (_env : List (String × String)) : Except String Unit :=
  Except.error "ImportError: attempted relative import with no known parent package"

/-- Body of an HTTP response from the `/api/` route. -/
inductive HttpBody (α : Type) where
  | errorBody (msg : String)
  | resultBody (r : Response α)
deriving DecidableEq, Repr

/-- Status code plus body. -/
structure HttpResponse (α : Type) where
  status : Nat
  body : HttpBody α
deriving DecidableEq, Repr

/-- The `/api/` handler `analyze_data` (api/index.py lines 29-69), after the
input-format normalization produced `question_text`. `DataAnalystAgent()` is
constructed inside the handler's `try`, so a missing credential raises there
and is caught by `except Exception` → `jsonify({'error': str(e)}), 500`.
Note: under the repository's module layout the import of api/index.py itself
fails (see `module_startup`), so this route is unreachable at runtime; the
definition translates the handler's own code. -/
def analyze_data {α : Type} (env : List (String × String)) (question_text : String)
    (parsedTasks : List Task) (scrapeOutcome duckOutcome : Except String Dataset)
    (chart analyze : Task → Except String α) : HttpResponse α :=
  if pyStrip question_text == "" then
    { status := 400, body := HttpBody.errorBody "No question provided" }
  else
    match geminiClientInit env with
    | Except.error e => { status := 500, body := HttpBody.errorBody e }
    | Except.ok _ =>
        { status := 200
          body := HttpBody.resultBody
            (process_request question_text parsedTasks scrapeOutcome duckOutcome
              chart analyze) }

/-! ### Helper lemmas -/

/-- Both fallback scanners are the classifier mapped over the numbered lines. -/
lemma filterMapTasksEqMap (cl : String → TaskType) (xs : List String) :
    xs.filterMap (fun raw =>
        let line := pyStrip raw
        if startsNumDot line then
          some { type := cl line, question := some line, details := "" : Task }
        else none) =
      (xs.filterMap (fun raw =>
        let line := pyStrip raw
        if startsNumDot line then some line else none)).map
          (fun l => { type := cl l, question := some l, details := "" : Task }) := by
  induction xs with
  | nil => rfl
  | cons x xs ih =>
    by_cases h : startsNumDot (pyStrip x)
    · simp [List.filterMap_cons, h, ih]
    · simp only [List.filterMap_cons]
      simp [h, ih]

lemma fallbackParseTasks_eq_map (text : String) :
    fallbackParseTasks text =
      (numberedLines text).map
        (fun l => { type := classifyLineLLM l, question := some l, details := "" }) :=
  filterMapTasksEqMap classifyLineLLM (pySplitNL text)

lemma extract_questions_eq_map (text : String) :
    extract_questions_from_text text =
      (numberedLines text).map
        (fun l => { type := classifyLineAgent l, question := some l, details := "" }) :=
  filterMapTasksEqMap classifyLineAgent (pySplitNL text)

/-- On lines without `graph` and `number of`, the two classifiers agree. -/
lemma classify_agree (l : String)
    (h1 : strContains (pyLower l) "graph" = false)
    (h2 : strContains (pyLower l) "number of" = false) :
    classifyLineLLM l = classifyLineAgent l := by
  simp only [classifyLineLLM, classifyLineAgent, List.any_cons, List.any_nil,
    h1, h2, Bool.or_false]

/-- `Forall₂` between two maps over one list, from a pointwise fact. -/
lemma forall₂_map_map {α β γ : Type} (r : β → γ → Prop) (f : α → β) (g : α → γ)
    (xs : List α) (h : ∀ x ∈ xs, r (f x) (g x)) :
    List.Forall₂ r (xs.map f) (xs.map g) := by
  induction xs with
  | nil => exact List.Forall₂.nil
  | cons x xs ih =>
    exact List.Forall₂.cons (h x (List.mem_cons_self x xs))
      (ih (fun y hy => h y (List.mem_cons_of_mem x hy)))

/-! ### Claims C4, C5, C6 -/

/-- C4 (counterexample): the fallback classifier of the Task Decomposer
(`GeminiClient._fallback_parse`) and the one of the Result Aggregator
(`DataAnalystAgent._extract_questions_from_text`) are NOT extensionally equal.
On `"1. graph sales"` the decomposer classifies the line as `text` (its
keyword list lacks `graph`) while the aggregator classifies it as
`visualization`; on `"1. number of wins"` the decomposer yields `text` (no
`number of` keyword) while the aggregator yields `numerical`. -/
theorem fallback_classifiers_differ :
    fallbackParseTasks "1. graph sales" ≠
        extract_questions_from_text "1. graph sales" ∧
      fallbackParseTasks "1. graph sales" =
        [{ type := TaskType.text, question := some "1. graph sales", details := "" }] ∧
      extract_questions_from_text "1. graph sales" =
        [{ type := TaskType.visualization, question := some "1. graph sales",
           details := "" }] ∧
      fallbackParseTasks "1. number of wins" =
        [{ type := TaskType.text, question := some "1. number of wins", details := "" }] ∧
      extract_questions_from_text "1. number of wins" =
        [{ type := TaskType.numerical, question := some "1. number of wins",
           details := "" }] := by
  refine ⟨?_, ?_, ?_, ?_, ?_⟩ <;> decide

/-- C4 (amended): for every request text the two fallback scanners produce the
same questions, in the same order, with the same (empty) details; their
classified types agree on every line that contains neither `graph` nor
`number of` (case-insensitively) — the two keywords present only in the
aggregator's copy. -/
theorem fallback_classifiers_agree_modulo_keywords (text : String) :
    (fallbackParseTasks text).map Task.question =
        (extract_questions_from_text text).map Task.question ∧
      (fallbackParseTasks text).map Task.details =
        (extract_questions_from_text text).map Task.details ∧
      List.Forall₂ (fun a b => ∀ l, a.question = some l →
          strContains (pyLower l) "graph" = false →
          strContains (pyLower l) "number of" = false →
          a.type = b.type)
        (fallbackParseTasks text) (extract_questions_from_text text) := by
  rw [fallbackParseTasks_eq_map, extract_questions_eq_map]
  refine ⟨by simp, by simp, ?_⟩
  apply forall₂_map_map
  intro x _ l hl h1 h2
  have hx : x = l := Option.some.inj hl
  subst hx
  exact classify_agree x h1 h2

/-- C5 (counterexample): the claim includes `graph` among the Task Decomposer
fallback's visualization keywords, but `GeminiClient._fallback_parse`
classifies the matching line `"1. graph sales"` as `text`, not
`visualization`. -/
theorem decomposer_fallback_graph_is_text :
    (fallback_parse "1. graph sales").tasks =
        [{ type := TaskType.text, question := some "1. graph sales", details := "" }] ∧
      (fallback_parse "1. graph sales").tasks ≠
        [{ type := TaskType.visualization, question := some "1. graph sales",
           details := "" }] := by
  constructor <;> decide

/-- The classification rule of the decomposer's fallback as amended:
`correlation` when the lowercased line contains "correlation"; otherwise
`visualization` when it contains one of draw, plot, chart, scatterplot (no
`graph`); otherwise `numerical` when it contains "how many" or "count" (no
"number of"); otherwise `text`. Stated from the amended claim's words, to be
compared with the source translation `classifyLineLLM`. -/
def classifySpecAmended (line : String) : TaskType :=
  let l := pyLower line
  if strContains l "correlation" then TaskType.correlation
  else if strContains l "draw" || strContains l "plot" || strContains l "chart" ||
      strContains l "scatterplot" then TaskType.visualization
  else if strContains l "how many" || strContains l "count" then TaskType.numerical
  else TaskType.text

/-- C5 (amended): `GeminiClient._fallback_parse` turns exactly the stripped
lines starting with `<int>.` into tasks, in order, each carrying the line as
its question, empty details, and the type given by the amended keyword rule
(without `graph` and without `number of`). -/
theorem decomposer_fallback_classification (text : String) :
    (fallback_parse text).tasks =
      (numberedLines text).map
        (fun l => { type := classifySpecAmended l, question := some l, details := "" }) := by
  have hcl : ∀ l, classifyLineLLM l = classifySpecAmended l := by
    intro l
    simp only [classifyLineLLM, classifySpecAmended, List.any_cons, List.any_nil,
      Bool.or_false, Bool.or_assoc]
  show fallbackParseTasks text = _
  rw [fallbackParseTasks_eq_map]
  exact List.map_congr_left (fun l _ => by rw [hcl])

/-- C6: the keyed-object response shape is selected exactly when the raw
request text contains one of the five fixed signal substrings; in particular a
text containing `"question":` always selects object mode; and the shape of
`process_request`'s output is that of `_should_return_json` on the raw text,
whatever the sub-tasks and their outcomes — the decision depends only on the
request text. -/
theorem json_mode_detection {α : Type} (text : String) (parsedTasks : List Task)
    (scrapeOutcome duckOutcome : Except String Dataset)
    (chart analyze : Task → Except String α) :
    (should_return_json text =
        (strContains text "respond with a JSON object" ||
         strContains text "JSON object containing" ||
         strContains text "return as JSON" ||
         strContains text "\"question\":" ||
         strContains text "\x7b\"")) ∧
      (strContains text "\"question\":" = true → should_return_json text = true) ∧
      (process_request text parsedTasks scrapeOutcome duckOutcome chart
          analyze).isObj = should_return_json text := by
  refine ⟨?_, ?_, ?_⟩
  · simp [should_return_json, Bool.or_assoc]
  · intro h
    simp [should_return_json, h]
  · unfold process_request
    cases acquireData text scrapeOutcome duckOutcome with
    | error e =>
        cases hj : should_return_json text <;> simp [hj, Response.isObj]
    | ok d =>
        cases hj : should_return_json text <;> simp [hj, Response.isObj]

/-- Witness for the hypothesis-bearing clause of `json_mode_detection`. -/
theorem json_mode_detection_witness :
    should_return_json "give \"question\": please" = true :=
  (json_mode_detection (α := String) "give \"question\": please" [] (Except.ok ⟨1, 1⟩)
      (Except.ok ⟨1, 1⟩) (fun _ => Except.ok "") (fun _ => Except.ok "")).2.1
    (by decide)

/-! ### Claims C2, C3, C7, C8 -/

/-- C2: on a missing dataset or one with zero rows, the analysis path returns
the fixed sentinel string and the chart path returns the fixed 1×1 placeholder
data URI, and neither spawns a child process (the spawn count is 0, and the
outcome is independent of the code-generation and execution parameters). -/
theorem empty_dataset_short_circuit (data : Option Dataset)
    (codegen : Except String String) (p : ProcOutcome)
    (jsonParse : String → Option String) (imgExists : Bool) (b64img : String)
    (pil : Except Unit String)
    (h : data = none ∨ ∃ d, data = some d ∧ d.rows = 0) :
    analyze_with_llm_code data codegen p jsonParse = (Except.ok noDataSentinel, 0) ∧
      generate_chart_with_llm data codegen p imgExists b64img pil =
        (Except.ok placeholderDataURI, 0) := by
  have hempty : noneOrEmpty data = true := by
    rcases h with h | ⟨d, hd, hrows⟩
    · simp [h, noneOrEmpty]
    · simp [hd, noneOrEmpty, hrows]
  constructor
  · simp [analyze_with_llm_code, hempty]
  · simp [generate_chart_with_llm, hempty]

/-- Witness for `empty_dataset_short_circuit` at a concrete empty input. -/
theorem empty_dataset_short_circuit_witness :
    analyze_with_llm_code none (Except.ok "result = 1") ProcOutcome.timedOut
        (fun _ => none) = (Except.ok noDataSentinel, 0) ∧
      generate_chart_with_llm none (Except.ok "plt.savefig(SAVE_PATH)")
        ProcOutcome.timedOut true "" (Except.error ()) =
        (Except.ok placeholderDataURI, 0) :=
  empty_dataset_short_circuit none (Except.ok "result = 1") ProcOutcome.timedOut
    (fun _ => none) true "" (Except.error ()) (Or.inl rfl)

/-- C3: the wall-clock budgets are 30 s (analysis) and 60 s (chart); a timed-out
child yields the dedicated timeout error, which is a different error from the
one raised for a non-zero exit — whatever the captured stderr — and from the
chart path's missing-artifact error. -/
theorem timeout_error_is_distinct (jsonParse : String → Option String)
    (imgExists : Bool) (b64img : String) (pil : Except Unit String)
    (exitCode : Nat) (stdout stderr other : String) :
    analysisTimeoutSeconds = 30 ∧ chartTimeoutSeconds = 60 ∧
      (execute_analysis_code ProcOutcome.timedOut jsonParse).result =
        Except.error "Analysis code execution timeout" ∧
      (execute_chart_code ProcOutcome.timedOut imgExists b64img pil).result =
        Except.error "Chart generation timeout" ∧
      (exitCode ≠ 0 →
        (execute_analysis_code (ProcOutcome.completed exitCode stdout stderr)
            jsonParse).result =
          Except.error ("Code execution error: Code execution failed: " ++ stderr)) ∧
      (exitCode ≠ 0 →
        (execute_chart_code (ProcOutcome.completed exitCode stdout stderr) imgExists
            b64img pil).result =
          Except.error ("Chart execution error: Chart generation failed: " ++ stderr)) ∧
      "Analysis code execution timeout" ≠
        "Code execution error: Code execution failed: " ++ other ∧
      "Chart generation timeout" ≠
        "Chart execution error: Chart generation failed: " ++ other ∧
      "Chart generation timeout" ≠
        "Chart execution error: Chart image was not generated" := by
  refine ⟨rfl, rfl, rfl, rfl, ?_, ?_, ?_, ?_, by decide⟩
  · intro hexit
    simp [execute_analysis_code, hexit]
  · intro hexit
    simp [execute_chart_code, hexit]
  · intro h
    have h2 := congrArg String.length h
    rw [String.length_append] at h2
    have e1 : ("Analysis code execution timeout" : String).length = 31 := rfl
    have e2 : ("Code execution error: Code execution failed: " : String).length = 45 := rfl
    omega
  · intro h
    have h2 := congrArg String.length h
    rw [String.length_append] at h2
    have e1 : ("Chart generation timeout" : String).length = 24 := rfl
    have e2 : ("Chart execution error: Chart generation failed: " : String).length = 48 := rfl
    omega

/-- Witness for the hypothesis-bearing clauses of `timeout_error_is_distinct`,
at exit code 1 and stderr `"boom"`. -/
theorem timeout_error_is_distinct_witness :
    (execute_analysis_code (ProcOutcome.completed 1 "" "boom") (fun _ => none)).result =
        Except.error "Code execution error: Code execution failed: boom" ∧
      (execute_chart_code (ProcOutcome.completed 1 "" "boom") true "" (Except.error ())).result =
        Except.error "Chart execution error: Chart generation failed: boom" :=
  ⟨(timeout_error_is_distinct (fun _ => none) true "" (Except.error ()) 1 "" "boom"
      "x").2.2.2.2.1 (by decide),
   (timeout_error_is_distinct (fun _ => none) true "" (Except.error ()) 1 "" "boom"
      "x").2.2.2.2.2.1 (by decide)⟩

/-- A base64 string of 100001 characters, exceeding the 100000 budget. -/
def bigB64 : String :=
  ⟨List.replicate 100001 'a'⟩

lemma bigB64_length : bigB64.length = 100001 := by
  show (List.replicate 100001 'a').length = 100001
  exact List.length_replicate ..

/-- C7 (counterexample): the size bound does NOT always hold. When the encoded
image exceeds 100000 characters and the recompression pass SUCCEEDS but still
returns more than 100000 characters, the result is returned with no further
check: here the executor returns an artifact whose encoded payload has 100001
characters. Truncation happens only when the recompression pass raises. -/
theorem chart_artifact_can_exceed_budget :
    (execute_chart_code (ProcOutcome.completed 0 "Chart saved successfully" "")
        true bigB64 (Except.ok bigB64)).result =
      Except.ok ("data:image/png;base64," ++ bigB64) ∧
      bigB64.length > 100000 := by
  constructor
  · simp [execute_chart_code, compress_image, bigB64_length]
  · rw [bigB64_length]
    decide

/-- C7 (amended): when the encoded image exceeds the 100000-character budget
the executor runs the recompression pass; if that pass raises, the encoding is
truncated to 100000 characters, so the returned payload is within the budget;
if the pass succeeds, its output is returned with no further size check. -/
theorem chart_size_bound_when_compression_fails (b64img : String)
    (stdout stderr : String) :
    (∃ payload,
        (execute_chart_code (ProcOutcome.completed 0 stdout stderr) true b64img
            (Except.error ())).result =
          Except.ok ("data:image/png;base64," ++ payload) ∧
        payload.length ≤ 100000 ∧
        (b64img.length ≤ 100000 → payload = b64img)) ∧
      (∀ compressed, b64img.length > 100000 →
        (execute_chart_code (ProcOutcome.completed 0 stdout stderr) true b64img
            (Except.ok compressed)).result =
          Except.ok ("data:image/png;base64," ++ compressed)) := by
  constructor
  · by_cases hlen : b64img.length > 100000
    · refine ⟨pySlice b64img 100000, ?_, ?_, ?_⟩
      · simp [execute_chart_code, compress_image, hlen]
      · simp only [pySlice, String.length]
        simp [List.length_take_le]
      · intro hle
        omega
    · refine ⟨b64img, ?_, by omega, fun _ => rfl⟩
      simp [execute_chart_code, hlen]
  · intro compressed hlen
    simp [execute_chart_code, compress_image, hlen]

/-- Witness for the hypothesis-bearing clauses of
`chart_size_bound_when_compression_fails`, at an 100001-character encoding. -/
theorem chart_size_bound_witness :
    (execute_chart_code (ProcOutcome.completed 0 "" "") true bigB64
        (Except.ok "small")).result =
      Except.ok ("data:image/png;base64," ++ "small") :=
  (chart_size_bound_when_compression_fails bigB64 "" "").2 "small"
    (by rw [bigB64_length]; decide)

/-- C8 (counterexample): scratch artifacts are NOT deleted on every path. On
the timeout path the `os.unlink` calls (placed after `subprocess.run`) are
never reached: the analysis executor leaves the serialized CSV and the program
file on disk, and the chart executor additionally leaves the image file. -/
theorem scratch_files_leak_on_timeout :
    (execute_analysis_code ProcOutcome.timedOut (fun _ => none)).leftover =
        ["data.csv", "code.py"] ∧
      (execute_chart_code ProcOutcome.timedOut true "" (Except.error ())).leftover =
        ["data.csv", "code.py", "chart.png"] ∧
      (["data.csv", "code.py"] : List String) ≠ [] := by
  refine ⟨rfl, rfl, by decide⟩

/-- C8 (amended): the serialized CSV and the program file are deleted whenever
the child process completes (success, non-zero exit, or missing artifact
alike), but on a timeout nothing is deleted; the chart image file is deleted
only on the fully successful path — a non-zero exit leaves it behind. -/
theorem scratch_file_cleanup_by_path (jsonParse : String → Option String)
    (exitCode : Nat) (stdout stderr b64img : String) (imgExists : Bool)
    (pil : Except Unit String) :
    (execute_analysis_code (ProcOutcome.completed exitCode stdout stderr)
        jsonParse).leftover = [] ∧
      (execute_analysis_code ProcOutcome.timedOut jsonParse).leftover =
        ["data.csv", "code.py"] ∧
      (execute_chart_code ProcOutcome.timedOut imgExists b64img pil).leftover =
        ["data.csv", "code.py", "chart.png"] ∧
      (exitCode ≠ 0 →
        (execute_chart_code (ProcOutcome.completed exitCode stdout stderr) imgExists
            b64img pil).leftover = ["chart.png"]) ∧
      (execute_chart_code (ProcOutcome.completed 0 stdout stderr) imgExists b64img
          pil).leftover = [] := by
  refine ⟨?_, rfl, rfl, ?_, ?_⟩
  · by_cases hexit : exitCode ≠ 0 <;> simp [execute_analysis_code, hexit]
  · intro hexit
    simp [execute_chart_code, hexit]
  · by_cases himg : imgExists <;> simp [execute_chart_code, himg]

/-- Witness for the hypothesis-bearing clause of `scratch_file_cleanup_by_path`
at exit code 1. -/
theorem scratch_file_cleanup_witness :
    (execute_chart_code (ProcOutcome.completed 1 "" "err") true "img"
        (Except.error ())).leftover = ["chart.png"] :=
  (scratch_file_cleanup_by_path (fun _ => none) 1 "" "err" "img" true
      (Except.error ())).2.2.2.1 (by decide)

/-! ### Loop lemmas and claims C1, C9, C10 -/

/-- In array mode the loop appends exactly one entry per task, in task order. -/
lemma processLoop_arr {α : Type} (chart analyze : Task → Except String α)
    (tasks : List Task) :
    ∀ (i : Nat) (results : List (Entry α)) (dict : List (String × Entry α)),
      processLoop false chart analyze i tasks results dict =
        (results ++ tasks.map (taskEntry chart analyze), dict) := by
  induction tasks with
  | nil => intro i results dict; simp [processLoop]
  | cons t rest ih =>
    intro i results dict
    simp [processLoop, ih]

/-- In object mode the loop performs exactly one dict insertion per task, under
the task's question (or the synthetic `question_{i+1}` key), in task order. -/
lemma processLoop_obj {α : Type} (chart analyze : Task → Except String α)
    (tasks : List Task) :
    ∀ (i : Nat) (results : List (Entry α)) (dict : List (String × Entry α)),
      processLoop true chart analyze i tasks results dict =
        (results,
          (tasks.enumFrom i).foldl
            (fun d it =>
              dictInsert d (it.2.question.getD ("question_" ++ toString (it.1 + 1)))
                (taskEntry chart analyze it.2)) dict) := by
  induction tasks with
  | nil => intro i results dict; simp [processLoop, List.enumFrom]
  | cons t rest ih =>
    intro i results dict
    simp [processLoop, List.enumFrom, ih]

/-- C1: per-task failure isolation in `process_request`. A failing sub-task
(its path returning an exception `e`) contributes exactly the entry
`"Error processing task: " ++ e` — at its position in array mode, under its
question key in object mode — and every other task is still processed: the
response has exactly one entry/insertion per task of the batch, whatever each
task's outcome. No per-task failure escapes: `process_request` is total and
its value is given by the two closed forms below. -/
theorem per_task_failure_isolation {α : Type} (text : String)
    (parsedTasks : List Task) (scrapeOutcome duckOutcome : Except String Dataset)
    (chart analyze : Task → Except String α) (d : Option Dataset)
    (hacq : acquireData text scrapeOutcome duckOutcome = Except.ok d) :
    (∀ task e, task.type = TaskType.visualization → chart task = Except.error e →
        taskEntry chart analyze task = Entry.err ("Error processing task: " ++ e)) ∧
      (∀ task e, task.type ≠ TaskType.visualization → analyze task = Except.error e →
        taskEntry chart analyze task = Entry.err ("Error processing task: " ++ e)) ∧
      (should_return_json text = false →
        process_request text parsedTasks scrapeOutcome duckOutcome chart analyze =
          Response.arr
            ((effectiveTasks text parsedTasks).map (taskEntry chart analyze))) ∧
      (should_return_json text = true →
        process_request text parsedTasks scrapeOutcome duckOutcome chart analyze =
          Response.obj
            (((effectiveTasks text parsedTasks).enumFrom 0).foldl
              (fun dct it =>
                dictInsert dct
                  (it.2.question.getD ("question_" ++ toString (it.1 + 1)))
                  (taskEntry chart analyze it.2)) [])) := by
  refine ⟨?_, ?_, ?_, ?_⟩
  · intro task e ht hc
    unfold taskEntry
    rw [if_pos ht, hc]
  · intro task e ht hc
    unfold taskEntry
    rw [if_neg ht, hc]
  · intro hj
    unfold process_request
    rw [hacq]
    simp [hj, processLoop_arr]
  · intro hj
    unfold process_request
    rw [hacq]
    simp [hj, processLoop_obj]

/-- Witness for `per_task_failure_isolation`: three analysis tasks, the middle
one failing; the batch still yields three entries, the failure rendered as its
error string in position two. -/
theorem per_task_failure_isolation_witness :
    process_request (α := String) "t"
      [{ type := TaskType.text, question := some "q1", details := "" },
       { type := TaskType.text, question := some "q2", details := "" },
       { type := TaskType.text, question := some "q3", details := "" }]
      (Except.ok ⟨1, 1⟩) (Except.ok ⟨1, 1⟩) (fun _ => Except.ok "c")
      (fun t => if t.question = some "q2" then Except.error "boom" else Except.ok "ok") =
      Response.arr
        [Entry.val "ok", Entry.err "Error processing task: boom", Entry.val "ok"] := by
  rw [(per_task_failure_isolation (α := String) "t"
      [{ type := TaskType.text, question := some "q1", details := "" },
       { type := TaskType.text, question := some "q2", details := "" },
       { type := TaskType.text, question := some "q3", details := "" }]
      (Except.ok ⟨1, 1⟩) (Except.ok ⟨1, 1⟩) (fun _ => Except.ok "c")
      (fun t => if t.question = some "q2" then Except.error "boom" else Except.ok "ok")
      none (by decide)).2.2.1 (by decide)]
  decide

/-- C9: the credential is never checked at process start. Importing
api/index.py fails with the same `ImportError` whether or not
`GEMINI_API_KEY` is set — the fatal error at process start is unrelated to
the credential, contradicting the claim that the credential's absence is what
is fatal there — while the only read of the credential in the source
(`GeminiClient.__init__`) sits on the per-request path: the handler code,
were the import defect fixed, would surface the missing key as a per-request
HTTP 500 error response, not a startup failure. -/
theorem credential_not_checked_at_startup :
    module_startup [("GEMINI_API_KEY", "key")] = module_startup [] ∧
      module_startup [] =
        Except.error
          "ImportError: attempted relative import with no known parent package" ∧
      geminiClientInit [("GEMINI_API_KEY", "key")] = Except.ok () ∧
      geminiClientInit [] =
        Except.error "GEMINI_API_KEY environment variable is required" ∧
      analyze_data (α := String) [] "1. How many rows?" [] (Except.ok ⟨1, 1⟩)
        (Except.ok ⟨1, 1⟩) (fun _ => Except.ok "c") (fun _ => Except.ok "a") =
        { status := 500,
          body := HttpBody.errorBody "GEMINI_API_KEY environment variable is required" } := by
  refine ⟨rfl, rfl, by decide, by decide, by decide⟩

/-- C10 (counterexample): when dataset acquisition fails, `process_request`
returns an error entry even though the parse yielded zero tasks and no line of
the text starts with `<int>.` — here the scrape of the text's URL raises and
the response is `["Processing failed: boom"]`, not the empty array. -/
theorem acquisition_failure_yields_error_entry :
    numberedLines "see https://example.com" = [] ∧
      process_request (α := String) "see https://example.com" []
        (Except.error "boom") (Except.ok ⟨1, 1⟩) (fun _ => Except.ok "c")
        (fun _ => Except.ok "a") =
        Response.arr [Entry.err "Processing failed: boom"] ∧
      Response.arr (α := String) [Entry.err "Processing failed: boom"] ≠
        Response.arr [] := by
  refine ⟨by decide, by decide, by decide⟩

/-- C10 (amended): when the parse yields zero tasks, no stripped line of the
text begins with an integer and a period, and the dataset-acquisition step
does not raise, `process_request` returns the empty array (or the empty object
in keyed mode) — no error entry and no exception. -/
theorem empty_parse_yields_empty_response {α : Type} (text : String)
    (parsedTasks : List Task) (scrapeOutcome duckOutcome : Except String Dataset)
    (chart analyze : Task → Except String α) (d : Option Dataset)
    (hparsed : parsedTasks = [])
    (hlines : ∀ raw ∈ pySplitNL text, startsNumDot (pyStrip raw) = false)
    (hacq : acquireData text scrapeOutcome duckOutcome = Except.ok d) :
    process_request text parsedTasks scrapeOutcome duckOutcome chart analyze =
      if should_return_json text then Response.obj [] else Response.arr [] := by
  subst hparsed
  have hext : extract_questions_from_text text = [] := by
    unfold extract_questions_from_text
    refine List.filterMap_eq_nil_iff.mpr (fun raw hraw => ?_)
    simp [hlines raw hraw]
  unfold process_request
  rw [hacq]
  have heff : effectiveTasks text [] = [] := by
    simp [effectiveTasks, hext]
  cases hj : should_return_json text <;>
    simp [hj, heff, processLoop]

/-- Witness for `empty_parse_yields_empty_response` on the request `"hello"`
(no URL, no numbered line, array mode). -/
theorem empty_parse_yields_empty_response_witness :
    process_request (α := String) "hello" [] (Except.ok ⟨1, 1⟩) (Except.ok ⟨1, 1⟩)
      (fun _ => Except.ok "c") (fun _ => Except.ok "a") = Response.arr [] := by
  rw [empty_parse_yields_empty_response (α := String) "hello" [] (Except.ok ⟨1, 1⟩)
    (Except.ok ⟨1, 1⟩) (fun _ => Except.ok "c") (fun _ => Except.ok "a") none rfl
    (by decide) (by decide)]
  decide

end DataAgent
